import Mathlib

/-!
Shallow embedding of the escrow workflow engine of this repository:
the state model (`state_machine.py`), the inline keyboards
(`keyboards.py`) and the lifecycle controller (`handlers/escrow.py`).
Database tables are modelled as lists of rows; `fetchrow` on a keyed
SELECT becomes `List.find?`, an SQL UPDATE becomes a `List.map` that
rewrites the matching rows, and an INSERT appends.  Timestamps are
integers; "now" is passed explicitly.  Telegram chat/user identifiers
and token values are natural numbers; action names and escrow codes are
strings, exactly as in the source.
-/

namespace EscrowBot

/-- States of an escrow, from the EscrowState enum in state_machine.py. -/
inductive EscrowState where
  | CREATED
  | FORM_SUBMITTED
  | AGREEMENT_PREVIEW
  | AGREED
  | FUNDED
  | DELIVERED
  | RELEASE_REQUESTED
  | RELEASE_CONFIRMED
  | COMPLETED
  | DISPUTED
  | CANCELLED
  | EXPIRED
deriving DecidableEq

/-- The ALLOWED_TRANSITIONS table of state_machine.py, edge for edge. -/
def ALLOWED_TRANSITIONS : EscrowState → List EscrowState
  | .CREATED => [.FORM_SUBMITTED, .CANCELLED]
  | .FORM_SUBMITTED => [.AGREEMENT_PREVIEW, .CANCELLED]
  | .AGREEMENT_PREVIEW => [.AGREED, .CANCELLED]
  | .AGREED => [.FUNDED, .CANCELLED]
  | .FUNDED => [.DELIVERED, .DISPUTED, .CANCELLED]
  | .DELIVERED => [.RELEASE_REQUESTED, .DISPUTED]
  | .RELEASE_REQUESTED => [.RELEASE_CONFIRMED, .DISPUTED]
  | .RELEASE_CONFIRMED => [.COMPLETED]
  | .COMPLETED => []
  | .DISPUTED => [.RELEASE_CONFIRMED, .CANCELLED]
  | .CANCELLED => []
  | .EXPIRED => []

/-- Membership in the ALLOWED_TRANSITIONS table: a transition from s to t
is legal exactly when t is in the successor set of s. -/
def can_transition (s t : EscrowState) : Bool :=
  decide (t ∈ ALLOWED_TRANSITIONS s)

/-- A row of the action_tokens table (see create_action_token in
handlers/escrow.py): token value, escrow reference, action name, bound
user, used flag (false at creation) and expiry timestamp. -/
structure TokenRow where
  token : Nat
  escrow_id : Nat
  action : String
  user_id : Nat
  used : Bool
  expires_at : Int
deriving DecidableEq

/-- A row of the escrows table, restricted to the columns the lifecycle
controller reads or writes.  The state column holds string literals in
the source; every literal ever written is a member of the EscrowState
enum, so it is embedded as the enum directly. -/
structure EscrowRow where
  id : Nat
  escrow_code : String
  chat_id : Nat
  buyer_id : Nat
  seller_id : Nat
  state : EscrowState
deriving DecidableEq

/-- A row of the append-only escrow_logs table written by log_action.
The JSON payload argument is opaque to every check the controller
performs, so it is not modelled. -/
structure LogEntry where
  escrow_id : Nat
  chat_id : Nat
  actor_id : Nat
  action : String
deriving DecidableEq

/-- The database state the escrow handlers read and write.  nextToken
and nextEscrowId model the server-generated token UUIDs and the SERIAL
escrow ids: each INSERT uses the counter and bumps it. -/
structure DB where
  escrows : List EscrowRow
  tokens : List TokenRow
  logs : List LogEntry
  nextToken : Nat
  nextEscrowId : Nat
deriving DecidableEq

/-- The (ok, reason) pairs returned by consume_action_token: ok stands
for (True, "ok"), the other constructors for (False, reason) with the
reason string of the same name. -/
inductive ConsumeResult where
  | ok
  | invalid_token
  | already_used
  | wrong_user
  | expired
deriving DecidableEq

/-- The WHERE clause of the SELECT in consume_action_token:
token = $1 AND escrow_id = $2 AND action = $3. -/
def tokenMatches (t eid : Nat) (a : String) (r : TokenRow) : Bool :=
  r.token == t && r.escrow_id == eid && r.action == a

/-- consume_action_token from handlers/escrow.py.  Looks the token row
up by the (token, escrow, action) triple; denies in order with
invalid_token (no row), already_used, wrong_user, expired
(expires_at < now); on success the UPDATE sets used = true on every row
whose token column matches (the UPDATE filters on token only). -/
def consume_action_token (tokens : List TokenRow) (t eid : Nat)
    (a : String) (uid : Nat) (now : Int) : List TokenRow × ConsumeResult :=
  match tokens.find? (tokenMatches t eid a) with
  | none => (tokens, .invalid_token)
  | some row =>
    if row.used then (tokens, .already_used)
    else if row.user_id ≠ uid then (tokens, .wrong_user)
    else if row.expires_at < now then (tokens, .expired)
    else
      (tokens.map (fun r => if r.token == t then { r with used := true } else r), .ok)

/-- create_action_token from handlers/escrow.py: INSERT a fresh token
row bound to exactly the given (escrow, action, user) triple, unused,
expiring at now + ttl; returns the server-generated token value. -/
def create_action_token (db : DB) (eid : Nat) (a : String) (uid : Nat)
    (now ttl : Int) : DB × Nat :=
  let tok := db.nextToken
  ({ db with
      tokens := db.tokens ++ [⟨tok, eid, a, uid, false, now + ttl⟩],
      nextToken := tok + 1 }, tok)

/-- log_action from handlers/escrow.py: append one row to escrow_logs. -/
def log_action (db : DB) (eid chat actor : Nat) (a : String) : DB :=
  { db with logs := db.logs ++ [⟨eid, chat, actor, a⟩] }

/-- generate_escrow_code from handlers/escrow.py: "PW-" followed by the
current escrow count plus 100000. -/
def generate_escrow_code (count : Nat) : String :=
  "PW-" ++ toString (count + 100000)

/-- Result of parse_user_field in on_form_message: a numeric Telegram id,
or a username / unparsed string kept opaque. -/
inductive UserField where
  | uid (n : Nat)
  | uname (s : String)
deriving DecidableEq

/-- The buyer_id / seller_id expression of the escrows INSERT in
on_form_message: the parsed numeric id if the field is an int, otherwise
the form creator's id. -/
def resolveParty (f : UserField) (creator : Nat) : Nat :=
  match f with
  | .uid n => n
  | .uname _ => creator

/-- What on_form_message hands back to the rest of the flow: the updated
database, the new escrow row's id and public code, and the two freshly
issued agree tokens. -/
structure FormResult where
  db : DB
  escrow_id : Nat
  escrow_code : String
  buyer_token : Nat
  seller_token : Nat
deriving DecidableEq

/-- The database effects of on_form_message in handlers/escrow.py, in
source order: insert the escrow row directly in state FORM_SUBMITTED
with buyer/seller resolved by resolveParty, log form_submitted, then
issue the agree_buyer and agree_seller tokens -- both bound to
message.from_user.id, the form creator -- and log
agreement_preview_sent. -/
def on_form_message (db : DB) (chat creator : Nat)
    (buyer_field seller_field : UserField) (now ttl : Int) : FormResult :=
  let code := generate_escrow_code db.escrows.length
  let eid := db.nextEscrowId
  let row : EscrowRow :=
    ⟨eid, code, chat, resolveParty buyer_field creator,
      resolveParty seller_field creator, .FORM_SUBMITTED⟩
  let db1 := { db with escrows := db.escrows ++ [row], nextEscrowId := eid + 1 }
  let db2 := log_action db1 eid chat creator "form_submitted"
  let (db3, buyer_token) := create_action_token db2 eid "agree_buyer" creator now ttl
  let (db4, seller_token) := create_action_token db3 eid "agree_seller" creator now ttl
  let db5 := log_action db4 eid chat creator "agreement_preview_sent"
  ⟨db5, eid, code, buyer_token, seller_token⟩

/-- One inline button: callback data action|escrow_code|token, as built
by action_button in keyboards.py. -/
structure CallbackButton where
  action : String
  escrow_code : String
  token : Nat
deriving DecidableEq

/-- agreement_keyboard from keyboards.py: Agree (Buyer) with the buyer
token, Agree (Seller) with the seller token, and Disagree carrying the
seller token. -/
def agreement_keyboard (code : String) (buyer_token seller_token : Nat) :
    List CallbackButton :=
  [⟨"agree_buyer", code, buyer_token⟩,
   ⟨"agree_seller", code, seller_token⟩,
   ⟨"disagree", code, seller_token⟩]

/-- Python's str.startswith, used by the router's role checks: p is a
prefix of s (character by character). -/
def str_startswith (s p : String) : Bool :=
  p.data.isPrefixOf s.data

/-- The outcomes of callback_router that are visible to the caller. -/
inductive RouterResult where
  | escrow_not_found
  | denied (r : ConsumeResult)
  | unauthorized_buyer
  | unauthorized_seller
  | cancelled
  | agreed_both
  | agreed_pending
  | unhandled
deriving DecidableEq

/-- The actor ids of the escrow_logs rows the reconciliation SELECT
returns: rows of this escrow whose action column is agreed.  (The SQL
DISTINCT only removes duplicates, which is invisible to the membership
tests the router performs.) -/
def agreedActors (logs : List LogEntry) (eid : Nat) : List Nat :=
  (logs.filter (fun e => e.escrow_id == eid && e.action == "agreed")).map
    (fun e => e.actor_id)

/-- callback_router from handlers/escrow.py, after the transport has
split the callback data into action, escrow code and token.  Looks the
escrow up by code, consumes the token, then role-checks agree_buyer /
agree_seller, cancels on disagree, and for the agree actions appends the
agreed log entry, collects the distinct agreed actors (adding the
current user), and writes AGREED when both buyer and seller are in the
set.  No branch consults ALLOWED_TRANSITIONS. -/
def callback_router (db : DB) (action esc_code : String) (token uid : Nat)
    (now : Int) : DB × RouterResult :=
  match db.escrows.find? (fun e => e.escrow_code == esc_code) with
  | none => (db, .escrow_not_found)
  | some esc =>
    let res := consume_action_token db.tokens token esc.id action uid now
    let db1 := { db with tokens := res.1 }
    if res.2 ≠ ConsumeResult.ok then (db1, .denied res.2)
    else if str_startswith action "agree_buyer" && uid ≠ esc.buyer_id then
      (db1, .unauthorized_buyer)
    else if str_startswith action "agree_seller" && uid ≠ esc.seller_id then
      (db1, .unauthorized_seller)
    else if action == "disagree" then
      let db2 := { db1 with
        escrows := db1.escrows.map
          (fun e => if e.id == esc.id then { e with state := .CANCELLED } else e) }
      let db3 := log_action db2 esc.id esc.chat_id uid "disagreed"
      (db3, .cancelled)
    else if action == "agree_buyer" || action == "agree_seller" then
      let db2 := log_action db1 esc.id esc.chat_id uid "agreed"
      let actors := uid :: agreedActors db2.logs esc.id
      if actors.contains esc.buyer_id && actors.contains esc.seller_id then
        let db3 := { db2 with
          escrows := db2.escrows.map
            (fun e => if e.id == esc.id then { e with state := .AGREED } else e) }
        let db4 := log_action db3 esc.id esc.chat_id uid "state_change"
        (db4, .agreed_both)
      else
        (db2, .agreed_pending)
    else (db1, .unhandled)

/-- Modelled from the spec, section 4.1: the adjacency table written out
from the spec's own text, to be compared with the source's
ALLOWED_TRANSITIONS. -/
def specAllowedTransitions : EscrowState → List EscrowState
  | .CREATED => [.FORM_SUBMITTED, .CANCELLED]
  | .FORM_SUBMITTED => [.AGREEMENT_PREVIEW, .CANCELLED]
  | .AGREEMENT_PREVIEW => [.AGREED, .CANCELLED]
  | .AGREED => [.FUNDED, .CANCELLED]
  | .FUNDED => [.DELIVERED, .DISPUTED, .CANCELLED]
  | .DELIVERED => [.RELEASE_REQUESTED, .DISPUTED]
  | .RELEASE_REQUESTED => [.RELEASE_CONFIRMED, .DISPUTED]
  | .RELEASE_CONFIRMED => [.COMPLETED]
  | .DISPUTED => [.RELEASE_CONFIRMED, .CANCELLED]
  | .COMPLETED => []
  | .CANCELLED => []
  | .EXPIRED => []

/-- The token identified by the (token, escrow, action) triple exists and
its used flag is set. -/
def tokenConsumed (tokens : List TokenRow) (t eid : Nat) (a : String) : Prop :=
  ∃ row, tokens.find? (tokenMatches t eid a) = some row ∧ row.used = true

/-- Every stored token value is below the issuance counter; this is what
the server-generated (UUID) token values guarantee and what every
database reachable through this code satisfies. -/
def tokensFresh (db : DB) : Prop :=
  ∀ r ∈ db.tokens, r.token < db.nextToken

/-- One inbound request handled by this repository's handlers: a callback
dispatched to callback_router, or a form submission handled by
on_form_message. -/
inductive Op where
  | cb (action esc_code : String) (token uid : Nat) (now : Int)
  | form (chat creator : Nat) (bf sf : UserField) (now ttl : Int)

/-- Apply one request to the database. -/
def applyOp (db : DB) : Op → DB
  | .cb a c t u n => (callback_router db a c t u n).1
  | .form ch cr bf sf n ttl => (on_form_message db ch cr bf sf n ttl).db

/-- Apply a sequence of requests in order. -/
def applyOps (db : DB) (ops : List Op) : DB :=
  ops.foldl applyOp db

/-- An empty database, as before the first form submission. -/
def emptyDB : DB := ⟨[], [], [], 0, 0⟩

/-- A concrete database: one escrow (buyer 1, seller 2) in
FORM_SUBMITTED with one unused agree token per party, each bound to its
own party. -/
def sampleDB : DB :=
  ⟨[⟨0, "PW-100000", 5, 1, 2, .FORM_SUBMITTED⟩],
   [⟨0, 0, "agree_buyer", 1, false, 100⟩,
    ⟨1, 0, "agree_seller", 2, false, 100⟩],
   [], 2, 1⟩

/-- A concrete database where the seller (id 2) has already logged an
agreed acknowledgement and the buyer (id 1) holds an unused agree
token. -/
def dbAgreeOne : DB :=
  ⟨[⟨0, "PW-100000", 5, 1, 2, .FORM_SUBMITTED⟩],
   [⟨0, 0, "agree_buyer", 1, false, 100⟩],
   [⟨0, 5, 2, "agreed"⟩], 1, 1⟩

/-- A concrete database in the shape on_form_message actually produces
when the seller (id 1) creates an escrow naming user 2 as buyer: the
agree_buyer token is bound to the creator 1, who is not the buyer. -/
def dbTokenBoundToCreator : DB :=
  ⟨[⟨0, "PW-100000", 5, 2, 1, .FORM_SUBMITTED⟩],
   [⟨0, 0, "agree_buyer", 1, false, 100⟩],
   [], 1, 1⟩

/-! Helper lemmas shared by the claim theorems. -/

/-- find? over a mapped list, for a predicate the mapped function does
not disturb. -/
theorem find?_map_invariant {α : Type} (l : List α) (f : α → α) (p : α → Bool)
    (h : ∀ a, p (f a) = p a) : (l.map f).find? p = (l.find? p).map f := by
  induction l with
  | nil => rfl
  | cons x xs ih => cases hpx : p x <;> simp [List.find?_cons, h, hpx, ih]

/-- find? looks at the first list of an append first. -/
theorem find?_append_or {α : Type} (l1 l2 : List α) (p : α → Bool) :
    (l1 ++ l2).find? p = ((l1.find? p).or (l2.find? p)) := by
  induction l1 with
  | nil => simp
  | cons x xs ih => cases hpx : p x <;> simp [List.find?_cons, hpx, ih]

/-- The update marking a token used does not change the columns the
consume SELECT filters on. -/
theorem tokenMatches_mark_used (t0 t eid : Nat) (a : String) (r : TokenRow) :
    tokenMatches t eid a
        (if r.token == t0 then { r with used := true } else r) =
      tokenMatches t eid a r := by
  cases hb : r.token == t0 <;> simp [hb, tokenMatches]

/-- On every denial path consume_action_token returns the token table it
was given: the only write, the UPDATE marking the token used, happens on
the success path alone. -/
theorem consume_not_ok_frame (tokens : List TokenRow) (t eid : Nat)
    (a : String) (uid : Nat) (now : Int)
    (h : (consume_action_token tokens t eid a uid now).2 ≠ ConsumeResult.ok) :
    consume_action_token tokens t eid a uid now =
      (tokens, (consume_action_token tokens t eid a uid now).2) := by
  unfold consume_action_token at *
  split at h <;> simp_all <;> split at h <;> simp_all <;>
    split at h <;> simp_all <;> split at h <;> simp_all

/-- C9: the implemented allowed-transition relation equals the spec's
adjacency table exactly -- for every pair of states the transition is
allowed iff it is a listed edge -- and COMPLETED, CANCELLED and EXPIRED
have empty successor sets. -/
theorem C9_transition_table_matches_spec :
    (∀ s t : EscrowState,
        can_transition s t = decide (t ∈ specAllowedTransitions s)) ∧
    ALLOWED_TRANSITIONS .COMPLETED = [] ∧
    ALLOWED_TRANSITIONS .CANCELLED = [] ∧
    ALLOWED_TRANSITIONS .EXPIRED = [] :=
  ⟨fun s t => by cases s <;> cases t <;> rfl, rfl, rfl, rfl⟩

/-- C2 as amended: consume_action_token checks in order -- row exists,
not used, bound party matches, not expired -- and returns the first
failing denial; but the expiry denial fires only when the expiry is
strictly earlier than now, so a token whose expiry equals now passes the
check and is consumed Ok. -/
theorem C2_consume_check_order (tokens : List TokenRow) (t eid : Nat)
    (a : String) (uid : Nat) (now : Int) :
    (tokens.find? (tokenMatches t eid a) = none →
      consume_action_token tokens t eid a uid now =
        (tokens, .invalid_token)) ∧
    (∀ row, tokens.find? (tokenMatches t eid a) = some row →
      (row.used = true →
        consume_action_token tokens t eid a uid now =
          (tokens, .already_used)) ∧
      (row.used = false → row.user_id ≠ uid →
        consume_action_token tokens t eid a uid now =
          (tokens, .wrong_user)) ∧
      (row.used = false → row.user_id = uid → row.expires_at < now →
        consume_action_token tokens t eid a uid now =
          (tokens, .expired)) ∧
      (row.used = false → row.user_id = uid → now ≤ row.expires_at →
        consume_action_token tokens t eid a uid now =
          (tokens.map
            (fun r => if r.token == t then { r with used := true } else r),
           .ok))) := by
  constructor
  · intro h
    simp [consume_action_token, h]
  · intro row h
    refine ⟨fun hu => ?_, fun hu hw => ?_, fun hu hw he => ?_,
      fun hu hw he => ?_⟩
    · simp [consume_action_token, h, hu]
    · simp [consume_action_token, h, hu, hw]
    · simp [consume_action_token, h, hu, hw, he]
    · simp [consume_action_token, h, hu, hw, not_lt.mpr he]

/-- Witness for C2_consume_check_order at a concrete token table. -/
theorem C2_consume_check_order_witness :
    consume_action_token [⟨7, 3, "agree_buyer", 1, false, 100⟩] 7 3
        "agree_buyer" 1 50 =
      ([⟨7, 3, "agree_buyer", 1, true, 100⟩], .ok) := by
  have h := ((C2_consume_check_order [⟨7, 3, "agree_buyer", 1, false, 100⟩]
      7 3 "agree_buyer" 1 50).2 ⟨7, 3, "agree_buyer", 1, false, 100⟩
      rfl).2.2.2 rfl rfl (by decide)
  rw [h]
  rfl

/-- Counterexample to C2 as stated: a token whose expiry timestamp is
exactly equal to now is consumed Ok, not denied with expired. -/
theorem C2_expiry_boundary_counterexample :
    (consume_action_token [⟨7, 3, "agree_buyer", 1, false, 50⟩] 7 3
        "agree_buyer" 1 50).2 = .ok ∧
    ConsumeResult.ok ≠ ConsumeResult.expired := by
  decide

/-- C7: every denial path of token consumption performs no writes: when
callback_router is denied with invalid_token, already_used, wrong_user
or expired, the whole database -- token rows, escrow rows and action
log -- is returned unchanged. -/
theorem C7_denial_performs_no_writes (db : DB) (action esc_code : String)
    (token uid : Nat) (now : Int) (db' : DB) (r : ConsumeResult)
    (h : callback_router db action esc_code token uid now = (db', .denied r)) :
    db' = db := by
  unfold callback_router at h
  split at h
  · simp at h
  · rename_i esc hesc
    by_cases hok :
        (consume_action_token db.tokens token esc.id action uid now).2 =
          ConsumeResult.ok
    · rw [if_neg (by simp [hok])] at h
      split at h
      · exact absurd (congrArg Prod.snd h) (by simp)
      · split at h
        · exact absurd (congrArg Prod.snd h) (by simp)
        · split at h
          · exact absurd (congrArg Prod.snd h) (by simp)
          · split at h
            · dsimp only at h
              split at h
              · exact absurd (congrArg Prod.snd h) (by simp)
              · exact absurd (congrArg Prod.snd h) (by simp)
            · exact absurd (congrArg Prod.snd h) (by simp)
    · rw [if_pos hok] at h
      have hframe := consume_not_ok_frame db.tokens token esc.id action uid
        now hok
      have h1 := congrArg Prod.fst h
      have h2 := congrArg Prod.fst hframe
      simp only at h1 h2
      rw [h2] at h1
      exact h1.symm

/-- A successful consumption leaves the consumed token's row marked
used. -/
theorem consume_ok_consumed (tokens : List TokenRow) (t eid : Nat)
    (a : String) (uid : Nat) (now : Int) (tk' : List TokenRow)
    (h : consume_action_token tokens t eid a uid now = (tk', .ok)) :
    tokenConsumed tk' t eid a := by
  unfold consume_action_token at h
  split at h
  · simp at h
  · rename_i row hf
    split at h
    · simp at h
    · split at h
      · simp at h
      · split at h
        · simp at h
        · have htk : tk' = tokens.map
              (fun r => if r.token == t then { r with used := true } else r) :=
            (congrArg Prod.fst h).symm
          have hrow : tokenMatches t eid a row = true := List.find?_some hf
          have hrt : (row.token == t) = true := by
            simp [tokenMatches] at hrow
            simp [hrow.1]
          refine ⟨{ row with used := true }, ?_, rfl⟩
          rw [htk, find?_map_invariant tokens _ _
            (fun r => tokenMatches_mark_used t t eid a r), hf]
          simp only [beq_iff_eq] at hrt
          simp [hrt]

/-- The first component of consume_action_token is either the input
table (denials) or the table with the token marked used (success). -/
theorem consume_fst_cases (tokens : List TokenRow) (t eid : Nat)
    (a : String) (uid : Nat) (now : Int) :
    (consume_action_token tokens t eid a uid now).1 = tokens ∨
    (consume_action_token tokens t eid a uid now).1 =
      tokens.map (fun r => if r.token == t then { r with used := true } else r) := by
  unfold consume_action_token
  split
  · exact Or.inl rfl
  · split
    · exact Or.inl rfl
    · split
      · exact Or.inl rfl
      · split
        · exact Or.inl rfl
        · exact Or.inr rfl

/-- Marking any token used preserves consumed-ness of a token. -/
theorem consumed_map_mark_used (tokens : List TokenRow) (t eid : Nat)
    (a : String) (t2 : Nat) (h : tokenConsumed tokens t eid a) :
    tokenConsumed
      (tokens.map (fun r => if r.token == t2 then { r with used := true } else r))
      t eid a := by
  obtain ⟨row, hf, hu⟩ := h
  refine ⟨if row.token == t2 then { row with used := true } else row, ?_, ?_⟩
  · rw [find?_map_invariant tokens _ _
      (fun r => tokenMatches_mark_used t2 t eid a r), hf]
    rfl
  · cases hb : row.token == t2 <;> simp [hb, hu]

/-- Appending rows (new token issuance) preserves consumed-ness: the
SELECT still finds the earlier row first. -/
theorem consumed_append (tokens l2 : List TokenRow) (t eid : Nat)
    (a : String) (h : tokenConsumed tokens t eid a) :
    tokenConsumed (tokens ++ l2) t eid a := by
  obtain ⟨row, hf, hu⟩ := h
  exact ⟨row, by rw [find?_append_or, hf]; rfl, hu⟩

/-- consume_action_token, with any arguments, preserves consumed-ness. -/
theorem consumed_consume (tokens : List TokenRow) (t eid : Nat) (a : String)
    (t2 e2 : Nat) (a2 : String) (u2 : Nat) (n2 : Int)
    (h : tokenConsumed tokens t eid a) :
    tokenConsumed (consume_action_token tokens t2 e2 a2 u2 n2).1 t eid a := by
  rcases consume_fst_cases tokens t2 e2 a2 u2 n2 with hh | hh
  · rw [hh]; exact h
  · rw [hh]; exact consumed_map_mark_used tokens t eid a t2 h

/-- callback_router preserves consumed-ness: no branch ever clears a
used flag. -/
theorem consumed_router (db : DB) (action esc_code : String)
    (token uid : Nat) (now : Int) (t eid : Nat) (a : String)
    (h : tokenConsumed db.tokens t eid a) :
    tokenConsumed ((callback_router db action esc_code token uid now).1).tokens
      t eid a := by
  unfold callback_router
  split
  · exact h
  · rename_i esc hesc
    have hc := consumed_consume db.tokens t eid a token esc.id action uid now h
    dsimp only
    split
    · exact hc
    · split
      · exact hc
      · split
        · exact hc
        · split
          · simpa [log_action] using hc
          · split
            · split
              · simpa [log_action] using hc
              · simpa [log_action] using hc
            · exact hc

/-- on_form_message preserves consumed-ness: it only appends fresh token
rows. -/
theorem consumed_form (db : DB) (chat creator : Nat) (bf sf : UserField)
    (now ttl : Int) (t eid : Nat) (a : String)
    (h : tokenConsumed db.tokens t eid a) :
    tokenConsumed ((on_form_message db chat creator bf sf now ttl).db).tokens
      t eid a := by
  simp only [on_form_message, create_action_token, log_action]
  exact consumed_append _ _ _ _ _ (consumed_append _ _ _ _ _ h)

/-- Any sequence of requests preserves consumed-ness. -/
theorem consumed_applyOps (ops : List Op) (db : DB) (t eid : Nat)
    (a : String) (h : tokenConsumed db.tokens t eid a) :
    tokenConsumed ((applyOps db ops)).tokens t eid a := by
  induction ops generalizing db with
  | nil => exact h
  | cons op rest ih =>
    cases op with
    | cb a2 c2 t2 u2 n2 =>
      exact ih _ (consumed_router db a2 c2 t2 u2 n2 t eid a h)
    | form ch cr bf sf n2 ttl2 =>
      exact ih _ (consumed_form db ch cr bf sf n2 ttl2 t eid a h)

/-- Consuming a token whose row is marked used is denied with
already_used, whoever presents it and whenever. -/
theorem consumed_already_used (tokens : List TokenRow) (t eid : Nat)
    (a : String) (uid : Nat) (now : Int) (h : tokenConsumed tokens t eid a) :
    (consume_action_token tokens t eid a uid now).2 = .already_used := by
  obtain ⟨row, hf, hu⟩ := h
  unfold consume_action_token
  rw [hf]
  simp [hu]

/-- C3: once one consume call for a token has succeeded, every
subsequent consume call presenting that same token fails with
already_used -- for any presenting party, any time of presentation, and
after any number of intervening requests; there is never a second
successful consumption. -/
theorem C3_no_second_consumption (db : DB) (t eid : Nat) (a : String)
    (uid : Nat) (now : Int) (tk' : List TokenRow)
    (h : consume_action_token db.tokens t eid a uid now = (tk', .ok)) :
    ∀ (ops : List Op) (uid2 : Nat) (now2 : Int),
      (consume_action_token (applyOps { db with tokens := tk' } ops).tokens
          t eid a uid2 now2).2 = .already_used := by
  intro ops uid2 now2
  exact consumed_already_used _ _ _ _ _ _
    (consumed_applyOps ops { db with tokens := tk' } t eid a
      (consume_ok_consumed db.tokens t eid a uid now tk' h))

/-- Witness for C3_no_second_consumption: the buyer consumes their token
successfully; a later attempt on the same token, even by the other
party, is denied already_used. -/
theorem C3_no_second_consumption_witness :
    (consume_action_token
        (applyOps { sampleDB with tokens :=
            [⟨0, 0, "agree_buyer", 1, true, 100⟩,
             ⟨1, 0, "agree_seller", 2, false, 100⟩] }
          [Op.cb "agree_seller" "PW-100000" 1 2 60]).tokens
        0 0 "agree_buyer" 2 70).2 = .already_used :=
  C3_no_second_consumption sampleDB 0 0 "agree_buyer" 1 50
    [⟨0, 0, "agree_buyer", 1, true, 100⟩,
     ⟨1, 0, "agree_seller", 2, false, 100⟩] (by decide)
    [Op.cb "agree_seller" "PW-100000" 1 2 60] 2 70

/-- Witness for C7_denial_performs_no_writes: the seller (id 2) presents
the buyer's token with their own identity, is denied, and the database
is unchanged. -/
theorem C7_denial_performs_no_writes_witness :
    (callback_router sampleDB "agree_buyer" "PW-100000" 0 2 50).1 = sampleDB :=
  C7_denial_performs_no_writes sampleDB "agree_buyer" "PW-100000" 0 2 50
    ((callback_router sampleDB "agree_buyer" "PW-100000" 0 2 50).1)
    ConsumeResult.wrong_user (by decide)

/-- C1 fails on the code: a form submitted with username fields makes the
creator both buyer and seller; their single agree then drives the escrow
from FORM_SUBMITTED straight to AGREED, although FORM_SUBMITTED to
AGREED is not an edge of ALLOWED_TRANSITIONS -- the router never
consults the table and no InvalidTransition is raised. -/
theorem C1_router_skips_transition_check :
    (on_form_message emptyDB 5 7 (.uname "@buyer") (.uname "@seller")
        0 100).db.escrows.map (fun e => e.state) = [.FORM_SUBMITTED] ∧
    (callback_router
        (on_form_message emptyDB 5 7 (.uname "@buyer") (.uname "@seller")
          0 100).db
        "agree_buyer"
        (on_form_message emptyDB 5 7 (.uname "@buyer") (.uname "@seller")
          0 100).escrow_code
        (on_form_message emptyDB 5 7 (.uname "@buyer") (.uname "@seller")
          0 100).buyer_token
        7 50).2 = .agreed_both ∧
    (callback_router
        (on_form_message emptyDB 5 7 (.uname "@buyer") (.uname "@seller")
          0 100).db
        "agree_buyer"
        (on_form_message emptyDB 5 7 (.uname "@buyer") (.uname "@seller")
          0 100).escrow_code
        (on_form_message emptyDB 5 7 (.uname "@buyer") (.uname "@seller")
          0 100).buyer_token
        7 50).1.escrows.map (fun e => e.state) = [.AGREED] ∧
    can_transition .FORM_SUBMITTED .AGREED = false := by decide

/-- Counterexample to C8 as stated: the form-submission flow creates the
escrow record directly in state FORM_SUBMITTED, not CREATED. -/
theorem C8_initial_state_counterexample :
    (on_form_message emptyDB 5 7 (.uid 1) (.uid 2) 0 100).db.escrows.map
        (fun e => e.state) = [.FORM_SUBMITTED] ∧
    EscrowState.FORM_SUBMITTED ≠ .CREATED := by decide

/-- C8 as amended: every newly created escrow record is appended directly
in state FORM_SUBMITTED; no record in state CREATED is ever written, and
FORM_SUBMITTED is not reached through a transition from CREATED. -/
theorem C8_created_in_form_submitted (db : DB) (chat creator : Nat)
    (bf sf : UserField) (now ttl : Int) :
    ∃ r : EscrowRow,
      (on_form_message db chat creator bf sf now ttl).db.escrows =
        db.escrows ++ [r] ∧ r.state = .FORM_SUBMITTED := by
  refine ⟨⟨db.nextEscrowId, generate_escrow_code db.escrows.length, chat,
    resolveParty bf creator, resolveParty sf creator, .FORM_SUBMITTED⟩, ?_, rfl⟩
  simp [on_form_message, create_action_token, log_action]

/-- Counterexample to C4 as stated: the creator (id 1) holds the
agree_buyer token but is not the buyer (id 2); the request is denied
Unauthorized, yet the token's used flag has been flipped to true -- the
consumption is not rolled back on a denied role check. -/
theorem C4_counterexample_token_consumed_on_unauthorized :
    (callback_router dbTokenBoundToCreator "agree_buyer" "PW-100000" 0 1 50).2 =
        .unauthorized_buyer ∧
    (callback_router dbTokenBoundToCreator "agree_buyer" "PW-100000"
        0 1 50).1.tokens.map (fun r => r.used) = [true] ∧
    dbTokenBoundToCreator.tokens.map (fun r => r.used) = [false] := by decide

/-- C4 as amended: a role-gated request denied with Unauthorized leaves
the action log and the escrow state exactly as they were, but the
presented token has already been consumed (its used flag set) by the
token check that precedes the role check. -/
theorem C4_unauthorized_frame (db : DB) (action esc_code : String)
    (token uid : Nat) (now : Int) (db' : DB)
    (h : callback_router db action esc_code token uid now =
          (db', .unauthorized_buyer) ∨
        callback_router db action esc_code token uid now =
          (db', .unauthorized_seller)) :
    db'.logs = db.logs ∧ db'.escrows = db.escrows ∧
    ∃ esc, db.escrows.find? (fun e => e.escrow_code == esc_code) = some esc ∧
      tokenConsumed db'.tokens token esc.id action := by
  rcases h with h | h
  · unfold callback_router at h
    split at h
    · simp at h
    · rename_i esc hesc
      dsimp only at h
      split at h
      · simp at h
      · rename_i hok1
        have hok := not_not.mp hok1
        split at h
        · injection h with h1 h2
          subst h1
          refine ⟨rfl, rfl, esc, hesc, ?_⟩
          exact consume_ok_consumed db.tokens token esc.id action uid now _
            (by rw [← hok])
        · split at h
          · simp at h
          · split at h
            · simp at h
            · split at h
              · split at h
                · simp at h
                · simp at h
              · simp at h
  · unfold callback_router at h
    split at h
    · simp at h
    · rename_i esc hesc
      dsimp only at h
      split at h
      · simp at h
      · rename_i hok1
        have hok := not_not.mp hok1
        split at h
        · simp at h
        · split at h
          · injection h with h1 h2
            subst h1
            refine ⟨rfl, rfl, esc, hesc, ?_⟩
            exact consume_ok_consumed db.tokens token esc.id action uid now _
              (by rw [← hok])
          · split at h
            · simp at h
            · split at h
              · split at h
                · simp at h
                · simp at h
              · simp at h

/-- Witness for C4_unauthorized_frame at the concrete database where the
creator holds the agree_buyer token without being the buyer. -/
theorem C4_unauthorized_frame_witness :
    (callback_router dbTokenBoundToCreator "agree_buyer" "PW-100000"
        0 1 50).1.logs = dbTokenBoundToCreator.logs ∧
    (callback_router dbTokenBoundToCreator "agree_buyer" "PW-100000"
        0 1 50).1.escrows = dbTokenBoundToCreator.escrows ∧
    ∃ esc, dbTokenBoundToCreator.escrows.find?
        (fun e => e.escrow_code == "PW-100000") = some esc ∧
      tokenConsumed (callback_router dbTokenBoundToCreator "agree_buyer"
          "PW-100000" 0 1 50).1.tokens 0 esc.id "agree_buyer" :=
  C4_unauthorized_frame dbTokenBoundToCreator "agree_buyer" "PW-100000" 0 1 50
    ((callback_router dbTokenBoundToCreator "agree_buyer" "PW-100000" 0 1 50).1)
    (Or.inl (by decide))

/-- C6 fails on the code: on_form_message binds both agree tokens to the
form creator, not one per party.  With creator 1 (the buyer) and seller
2, the agree_seller token is bound to 1, so the seller -- who is not the
form's creator -- presenting the agree_seller token is denied
wrong_user, and can never drive the escrow to AGREED with it. -/
theorem C6_agree_tokens_bound_to_creator :
    (on_form_message emptyDB 5 1 (.uid 1) (.uid 2) 0 100).db.escrows.map
        (fun e => (e.buyer_id, e.seller_id)) = [(1, 2)] ∧
    (on_form_message emptyDB 5 1 (.uid 1) (.uid 2) 0 100).db.tokens.map
        (fun r => (r.action, r.user_id)) =
      [("agree_buyer", 1), ("agree_seller", 1)] ∧
    (callback_router
        (on_form_message emptyDB 5 1 (.uid 1) (.uid 2) 0 100).db
        "agree_seller"
        (on_form_message emptyDB 5 1 (.uid 1) (.uid 2) 0 100).escrow_code
        (on_form_message emptyDB 5 1 (.uid 1) (.uid 2) 0 100).seller_token
        2 50).2 = .denied .wrong_user := by decide

/-- The agreed-actor list distributes over appended logs. -/
theorem agreedActors_append (l1 l2 : List LogEntry) (eid : Nat) :
    agreedActors (l1 ++ l2) eid = agreedActors l1 eid ++ agreedActors l2 eid := by
  simp [agreedActors, List.filter_append]

/-- The agreed-actor list of one matching agreed entry. -/
theorem agreedActors_single_agreed (eid chat u : Nat) :
    agreedActors [⟨eid, chat, u, "agreed"⟩] eid = [u] := by
  simp [agreedActors, List.filter]

/-- Boolean contains agrees with list membership for identities. -/
theorem containsNat_iff (l : List Nat) (a : Nat) :
    l.contains a = true ↔ a ∈ l := by
  simp [List.contains]

/-- Appending the current actor once more at the end does not change
membership in the actor set that already lists them in front. -/
theorem mem_cons_append_single (y u : Nat) (A : List Nat) :
    y ∈ u :: (A ++ [u]) ↔ y ∈ u :: A := by
  simp [List.mem_cons, List.mem_append]
  tauto

/-- Every member of the agreed-actor list comes from an agreed log entry
of this escrow. -/
theorem mem_agreedActors (logs : List LogEntry) (eid y : Nat)
    (hy : y ∈ agreedActors logs eid) :
    ∃ l ∈ logs, l.escrow_id = eid ∧ l.action = "agreed" ∧ l.actor_id = y := by
  simp only [agreedActors, List.mem_map, List.mem_filter] at hy
  obtain ⟨l, ⟨hl, hcond⟩, hact⟩ := hy
  rw [Bool.and_eq_true, beq_iff_eq, beq_iff_eq] at hcond
  exact ⟨l, hl, hcond.1, hcond.2, hact⟩

/-- After the bulk UPDATE setting the state of every row with the given
id, every row with that id has the new state. -/
theorem state_after_bulk_update (l : List EscrowRow) (eid : Nat)
    (st : EscrowState) :
    ∀ e ∈ l.map (fun x => if x.id == eid then { x with state := st } else x),
      e.id = eid → e.state = st := by
  intro e he hid
  simp only [List.mem_map] at he
  obtain ⟨x, hx, hfx⟩ := he
  by_cases hxe : x.id = eid
  · rw [← hfx]
    simp [hxe]
  · rw [← hfx] at hid ⊢
    simp only [beq_iff_eq, if_neg hxe] at hid ⊢
    exact absurd hid hxe

/-- C5: the reconciliation behind agree_buyer / agree_seller returns
Satisfied (agreed_both, writing AGREED) exactly when the set of distinct
actor identities with an agreed log entry for this escrow, the current
actor included, contains both the buyer and the seller identity;
otherwise it returns Pending and leaves the escrow rows unchanged.  In
particular, when buyer and seller differ, duplicate acknowledgements all
coming from the single current actor never satisfy the joint condition. -/
theorem C5_reconciler_requires_both_parties (db : DB)
    (esc_code action : String) (token uid : Nat) (now : Int)
    (esc : EscrowRow)
    (hesc : db.escrows.find? (fun e => e.escrow_code == esc_code) = some esc)
    (hok : (consume_action_token db.tokens token esc.id action uid now).2 =
      ConsumeResult.ok)
    (hrole : (action = "agree_buyer" ∧ uid = esc.buyer_id) ∨
        (action = "agree_seller" ∧ uid = esc.seller_id)) :
    ((callback_router db action esc_code token uid now).2 = .agreed_both ↔
      esc.buyer_id ∈ uid :: agreedActors db.logs esc.id ∧
        esc.seller_id ∈ uid :: agreedActors db.logs esc.id) ∧
    ((callback_router db action esc_code token uid now).2 = .agreed_both ∨
      (callback_router db action esc_code token uid now).2 = .agreed_pending) ∧
    ((callback_router db action esc_code token uid now).2 = .agreed_pending →
      (callback_router db action esc_code token uid now).1.escrows = db.escrows) ∧
    ((callback_router db action esc_code token uid now).2 = .agreed_both →
      ∀ e ∈ (callback_router db action esc_code token uid now).1.escrows,
        e.id = esc.id → e.state = .AGREED) ∧
    (esc.buyer_id ≠ esc.seller_id →
      (∀ l ∈ db.logs, l.escrow_id = esc.id → l.action = "agreed" →
        l.actor_id = uid) →
      (callback_router db action esc_code token uid now).2 = .agreed_pending) := by
  have hnotok : ¬((consume_action_token db.tokens token esc.id action uid
      now).2 ≠ ConsumeResult.ok) := by simp [hok]
  unfold callback_router
  simp only [hesc]
  rw [if_neg hnotok]
  rcases hrole with ⟨ha, hu⟩ | ⟨ha, hu⟩ <;> subst ha <;> subst hu
  · rw [if_neg (by simp), if_neg (by simp [show str_startswith "agree_buyer"
      "agree_seller" = false from by decide]),
      if_neg (by simp [show ("agree_buyer" == "disagree") = false from by
        decide]),
      if_pos (by decide)]
    simp only [log_action]
    rw [agreedActors_append, agreedActors_single_agreed]
    have hbridge : ∀ y : Nat,
        (esc.buyer_id :: (agreedActors db.logs esc.id ++ [esc.buyer_id])).contains y
          = true ↔ y ∈ esc.buyer_id :: agreedActors db.logs esc.id := by
      intro y
      rw [containsNat_iff, mem_cons_append_single]
    by_cases hcond :
        ((esc.buyer_id :: (agreedActors db.logs esc.id ++ [esc.buyer_id])).contains
            esc.buyer_id &&
          (esc.buyer_id :: (agreedActors db.logs esc.id ++ [esc.buyer_id])).contains
            esc.seller_id) = true
    · rw [if_pos hcond]
      rw [Bool.and_eq_true, hbridge, hbridge] at hcond
      refine ⟨⟨fun _ => ⟨hcond.1, hcond.2⟩, fun _ => rfl⟩, Or.inl rfl,
        fun h => absurd h (by simp), fun _ e he hid => ?_,
        fun hne hall => ?_⟩
      · exact state_after_bulk_update db.escrows esc.id .AGREED e he hid
      · exfalso
        have hb : esc.buyer_id = esc.buyer_id ∨
            esc.buyer_id ∈ agreedActors db.logs esc.id := List.mem_cons.mp hcond.1
        have hs := List.mem_cons.mp hcond.2
        have hsu : esc.seller_id = esc.buyer_id := by
          rcases hs with hs | hs
          · exact hs
          · obtain ⟨l, hl, hle, hla, hly⟩ := mem_agreedActors db.logs esc.id
              esc.seller_id hs
            rw [← hly]
            exact hall l hl hle hla
        exact hne hsu.symm
    · rw [if_neg hcond]
      refine ⟨⟨fun h => absurd h (by simp), fun hmem => ?_⟩, Or.inr rfl,
        fun _ => rfl, fun h => absurd h (by simp), fun _ _ => rfl⟩
      exact absurd (Bool.and_eq_true .. ▸
        ⟨(hbridge esc.buyer_id).mpr hmem.1, (hbridge esc.seller_id).mpr hmem.2⟩)
        hcond
  · rw [if_neg (by simp [show str_startswith "agree_seller" "agree_buyer"
        = false from by decide]),
      if_neg (by simp),
      if_neg (by simp [show ("agree_seller" == "disagree") = false from by
        decide]),
      if_pos (by decide)]
    simp only [log_action]
    rw [agreedActors_append, agreedActors_single_agreed]
    have hbridge : ∀ y : Nat,
        (esc.seller_id :: (agreedActors db.logs esc.id ++ [esc.seller_id])).contains y
          = true ↔ y ∈ esc.seller_id :: agreedActors db.logs esc.id := by
      intro y
      rw [containsNat_iff, mem_cons_append_single]
    by_cases hcond :
        ((esc.seller_id :: (agreedActors db.logs esc.id ++ [esc.seller_id])).contains
            esc.buyer_id &&
          (esc.seller_id :: (agreedActors db.logs esc.id ++ [esc.seller_id])).contains
            esc.seller_id) = true
    · rw [if_pos hcond]
      rw [Bool.and_eq_true, hbridge, hbridge] at hcond
      refine ⟨⟨fun _ => ⟨hcond.1, hcond.2⟩, fun _ => rfl⟩, Or.inl rfl,
        fun h => absurd h (by simp), fun _ e he hid => ?_,
        fun hne hall => ?_⟩
      · exact state_after_bulk_update db.escrows esc.id .AGREED e he hid
      · exfalso
        have hb := List.mem_cons.mp hcond.1
        have hbu : esc.buyer_id = esc.seller_id := by
          rcases hb with hb | hb
          · exact hb
          · obtain ⟨l, hl, hle, hla, hly⟩ := mem_agreedActors db.logs esc.id
              esc.buyer_id hb
            rw [← hly]
            exact hall l hl hle hla
        exact hne hbu
    · rw [if_neg hcond]
      refine ⟨⟨fun h => absurd h (by simp), fun hmem => ?_⟩, Or.inr rfl,
        fun _ => rfl, fun h => absurd h (by simp), fun _ _ => rfl⟩
      exact absurd (Bool.and_eq_true .. ▸
        ⟨(hbridge esc.buyer_id).mpr hmem.1, (hbridge esc.seller_id).mpr hmem.2⟩)
        hcond

/-- Witness for C5_reconciler_requires_both_parties: with the seller's
agreed acknowledgement already logged, the buyer's agree satisfies the
joint condition and the escrow is reported AGREED. -/
theorem C5_reconciler_requires_both_parties_witness :
    (callback_router dbAgreeOne "agree_buyer" "PW-100000" 0 1 50).2 =
      RouterResult.agreed_both :=
  ((C5_reconciler_requires_both_parties dbAgreeOne "PW-100000" "agree_buyer"
      0 1 50 ⟨0, "PW-100000", 5, 1, 2, .FORM_SUBMITTED⟩ (by decide) (by decide)
      (Or.inl ⟨rfl, rfl⟩)).1).mpr (by decide)

/-- The token table after on_form_message: the old rows followed by the
two fresh agree tokens, both bound to the creator. -/
theorem form_tokens (db : DB) (chat creator : Nat) (bf sf : UserField)
    (now ttl : Int) :
    (on_form_message db chat creator bf sf now ttl).db.tokens =
      db.tokens ++
        [⟨db.nextToken, db.nextEscrowId, "agree_buyer", creator, false,
            now + ttl⟩,
         ⟨db.nextToken + 1, db.nextEscrowId, "agree_seller", creator, false,
            now + ttl⟩] := by
  simp [on_form_message, create_action_token, log_action]

/-- The seller token returned by on_form_message is the second fresh
token value. -/
theorem form_seller_token (db : DB) (chat creator : Nat) (bf sf : UserField)
    (now ttl : Int) :
    (on_form_message db chat creator bf sf now ttl).seller_token =
      db.nextToken + 1 := rfl

/-- C10: every Disagree button of the agreement keyboard carries the
seller's agree token, which the database stores under action
agree_seller; consuming it under the request's action disagree finds no
row, so the request is always denied invalid_token, the database is
unchanged, and the disagree-to-CANCELLED branch of the router is never
reached through the agreement keyboard. -/
theorem C10_keyboard_disagree_always_invalid_token (db : DB)
    (hfresh : tokensFresh db) (chat creator : Nat) (bf sf : UserField)
    (now ttl : Int) :
    ∀ b ∈ agreement_keyboard
        (on_form_message db chat creator bf sf now ttl).escrow_code
        (on_form_message db chat creator bf sf now ttl).buyer_token
        (on_form_message db chat creator bf sf now ttl).seller_token,
      b.action = "disagree" →
      ∀ (esc_code : String) (uid2 eid2 : Nat) (now2 : Int),
        (consume_action_token
            (on_form_message db chat creator bf sf now ttl).db.tokens
            b.token eid2 "disagree" uid2 now2).2 = .invalid_token ∧
        (callback_router (on_form_message db chat creator bf sf now ttl).db
            "disagree" esc_code b.token uid2 now2).1 =
          (on_form_message db chat creator bf sf now ttl).db ∧
        ((callback_router (on_form_message db chat creator bf sf now ttl).db
            "disagree" esc_code b.token uid2 now2).2 = .escrow_not_found ∨
         (callback_router (on_form_message db chat creator bf sf now ttl).db
            "disagree" esc_code b.token uid2 now2).2 =
           .denied .invalid_token) := by
  intro b hb hdis esc_code uid2 eid2 now2
  have hbtok : b.token = db.nextToken + 1 := by
    simp only [agreement_keyboard, List.mem_cons, List.not_mem_nil,
      or_false] at hb
    rcases hb with hb | hb | hb <;> subst hb
    · exact absurd hdis (by simp)
    · exact absurd hdis (by simp)
    · rfl
  have hnone : ∀ e2 : Nat,
      (on_form_message db chat creator bf sf now ttl).db.tokens.find?
        (tokenMatches b.token e2 "disagree") = none := by
    intro e2
    rw [hbtok, form_tokens]
    apply List.find?_eq_none.mpr
    intro x hx hcon
    simp only [tokenMatches, Bool.and_eq_true, beq_iff_eq] at hcon
    obtain ⟨⟨h1, h2⟩, h3⟩ := hcon
    rcases List.mem_append.mp hx with hx | hx
    · have hlt := hfresh x hx
      omega
    · simp only [List.mem_cons, List.not_mem_nil, or_false] at hx
      rcases hx with hx | hx <;> subst hx
      · simp only at h1
        omega
      · exact absurd h3 (by simp)
  have hcons : ∀ (e2 u2 : Nat) (n2 : Int),
      consume_action_token
          (on_form_message db chat creator bf sf now ttl).db.tokens
          b.token e2 "disagree" u2 n2 =
        ((on_form_message db chat creator bf sf now ttl).db.tokens,
          .invalid_token) := by
    intro e2 u2 n2
    unfold consume_action_token
    rw [hnone e2]
  refine ⟨by rw [hcons eid2 uid2 now2], ?_⟩
  unfold callback_router
  split
  · exact ⟨rfl, Or.inl rfl⟩
  · rename_i esc hesc
    dsimp only
    rw [hcons esc.id uid2 now2, if_pos (by simp)]
    exact ⟨rfl, Or.inr rfl⟩

/-- Witness for C10_keyboard_disagree_always_invalid_token: after the
first form submission, the keyboard's Disagree button (seller token 1)
is denied invalid_token. -/
theorem C10_keyboard_disagree_always_invalid_token_witness :
    (consume_action_token
        (on_form_message emptyDB 5 7 (.uid 1) (.uid 2) 0 100).db.tokens
        1 0 "disagree" 7 50).2 = .invalid_token :=
  (C10_keyboard_disagree_always_invalid_token emptyDB
      (by intro r hr; simp [emptyDB] at hr) 5 7 (.uid 1) (.uid 2) 0 100
      ⟨"disagree", "PW-100000", 1⟩ (by decide) rfl "PW-100000" 7 0 50).1

end EscrowBot
